import Mathlib

/-!
Verification of the MCP2Lambda gateway (main.py): a shallow embedding of the
naming policy, registry client, response formatter, generic tools and the
module-level bootstrap, together with theorems settling the specified
properties.  Python strings are modelled as Lean strings, with the Python
operations the source uses (startswith, slicing, per-character re.sub,
substring membership, split, strip) implemented over the underlying
character lists.  Bytes values are modelled as lists of natural numbers.
The AWS Lambda service and the FastMCP protocol server are external
collaborators and enter the model as parameters.
-/

/-- Python string primitive modelling s.startswith(p), over code points. -/
def pyStartsWith (s p : String) : Bool := p.data.isPrefixOf s.data

/-- Python string primitive modelling the slice s[n:] (drop the first n code points). -/
def pyDrop (s : String) (n : Nat) : String := ⟨s.data.drop n⟩

/-- Per-character substitution, modelling re.sub with a single-character class
(main.py line 55 substitutes each character outside the class). -/
def pyMap (f : Char → Char) (s : String) : String := ⟨s.data.map f⟩

/-- First code point of a Python string; use sites guard nonemptiness as the
source does. -/
def pyHead (s : String) : Char := s.data.headD (Char.ofNat 0)

/-- ASCII digit test; models str.isdigit at main.py line 58, where the tested
character is already restricted to the ASCII class [A-Za-z0-9_] by the
preceding substitution. -/
def asciiIsDigit (c : Char) : Bool := decide ('0' ≤ c) && decide (c ≤ '9')

/-- Membership in the character class [a-zA-Z0-9_] of the regular expression
at main.py line 55. -/
def isIdentChar (c : Char) : Bool :=
  (decide ('a' ≤ c) && decide (c ≤ 'z')) || (decide ('A' ≤ c) && decide (c ≤ 'Z')) ||
    (decide ('0' ≤ c) && decide (c ≤ '9')) || decide (c = '_')

/-- Membership in the class [A-Za-z_] of legal identifier start characters. -/
def isIdentStartChar (c : Char) : Bool :=
  (decide ('a' ≤ c) && decide (c ≤ 'z')) || (decide ('A' ≤ c) && decide (c ≤ 'Z')) ||
    decide (c = '_')

/-- Decides whether a string matches the identifier pattern that anchors the
spec, namely one start character of [A-Za-z_] followed by characters of
[A-Za-z0-9_] (so in particular the string is nonempty). -/
def isLegalToolIdent (s : String) : Bool :=
  match s.data with
  | [] => false
  | c :: rest => isIdentStartChar c && rest.all isIdentChar

/-- Process configuration read once at startup (main.py lines 29 and 30):
functionPfx models FUNCTION_PREFIX and functionList models FUNCTION_LIST. -/
structure Config where
  functionPfx : String
  functionList : List String
  deriving DecidableEq

/-- Default configuration values from main.py lines 29 and 30 (FUNCTION_PREFIX
defaults to the literal below, FUNCTION_LIST to the empty JSON array). -/
def defaultConfig : Config := { functionPfx := "mcp2lambda-", functionList := [] }

/-- Embedding of validate_function_name (main.py lines 41 to 45); the print
call is telemetry and is omitted. -/
def validate_function_name (cfg : Config) (function_name : String) : Bool :=
  pyStartsWith function_name cfg.functionPfx || cfg.functionList.contains function_name

/-- Substitution applied by re.sub at main.py line 55: characters outside
[a-zA-Z0-9_] become an underscore. -/
def substInvalidChar (c : Char) : Char := if isIdentChar c then c else '_'

/-- Step of main.py lines 51 to 52: remove the configured FUNCTION_PREFIX
when the name starts with it. -/
def stripPfx (cfg : Config) (name : String) : String :=
  if pyStartsWith name cfg.functionPfx then pyDrop name cfg.functionPfx.length else name

/-- Step of main.py lines 58 to 59: prepend an underscore when the name is
nonempty and starts with a digit, mirroring `if name and name[0].isdigit()`. -/
def leadingDigitGuard (s : String) : String :=
  match s.data with
  | [] => s
  | c :: _ => if asciiIsDigit c then "_" ++ s else s

/-- Embedding of sanitize_tool_name (main.py lines 48 to 62): strip the
configured FUNCTION_PREFIX when present, replace characters outside
[a-zA-Z0-9_] with an underscore, and guard a leading digit. -/
def sanitize_tool_name (cfg : Config) (name : String) : String :=
  leadingDigitGuard (pyMap substInvalidChar (stripPfx cfg name))

/-- Leftmost-occurrence search: returns the text before and after the first
occurrence of sep, or none when sep does not occur.  This is the semantic
core of the Python substring test (the in operator) and of str.split as used
at main.py lines 208 and 210. -/
def findFirstSplit (sep : List Char) : List Char → Option (List Char × List Char)
  | [] => if sep.isEmpty then some ([], []) else none
  | c :: rest =>
    if sep.isPrefixOf (c :: rest) then some ([], (c :: rest).drop sep.length)
    else
      match findFirstSplit sep rest with
      | some (b, a) => some (c :: b, a)
      | none => none

/-- Python substring membership: sub in s. -/
def pyContains (s sub : String) : Bool := (findFirstSplit sub.data s.data).isSome

/-- Element one of Python s.split(sep), defined when sep occurs in s: the text
between the first occurrence of sep and the following occurrence (or the end
of the string).  Matches the expression description.split(marker)[1] at
main.py line 210. -/
def pySplit1 (s sep : String) : String :=
  match findFirstSplit sep.data s.data with
  | none => s
  | some (_, after) =>
    match findFirstSplit sep.data after with
    | none => ⟨after⟩
    | some (b, _) => ⟨b⟩

/-- Unicode whitespace class of Python str.strip (the code points for which
Py_UNICODE_ISSPACE holds). -/
def pyIsSpace (c : Char) : Bool :=
  [9, 10, 11, 12, 13, 28, 29, 30, 31, 32, 0x85, 0xa0, 0x1680,
    0x2000, 0x2001, 0x2002, 0x2003, 0x2004, 0x2005, 0x2006, 0x2007,
    0x2008, 0x2009, 0x200a, 0x2028, 0x2029, 0x202f, 0x205f, 0x3000].contains c.toNat

/-- Python str.strip with no argument: remove leading and trailing whitespace. -/
def pyStrip (s : String) : String :=
  ⟨((s.data.dropWhile pyIsSpace).reverse.dropWhile pyIsSpace).reverse⟩

/-- One remote function as the registry client surfaces it: the FunctionName
key is always present in a ListFunctions entry, the Description key may be
absent (the code reads it with dict.get and conditional projection). -/
structure FunctionInfo where
  FunctionName : String
  Description : Option String
  deriving DecidableEq

/-- Marker scanned for inside descriptions during discovery (main.py line 208). -/
def expectedFormatMarker : String := "Expected format:"

/-- Description derivation for a discovered function, from main.py lines 205
to 211: default to "AWS Lambda function: " followed by the name when the
Description key is absent, then, when the marker occurs, append a Parameters
suffix holding the stripped text after the first marker occurrence. -/
def derive_description (f : FunctionInfo) : String :=
  let description := f.Description.getD ("AWS Lambda function: " ++ f.FunctionName)
  if pyContains description expectedFormatMarker then
    description ++ "\n\nParameters: " ++ pyStrip (pySplit1 description expectedFormatMarker)
  else description

/-- One step of the paginated enumeration as observed by the iteration in
list_functions_paginated: either a page of results arrives, or the remote
call raises while fetching the next page. -/
inductive PageEvent where
  | page (fns : List FunctionInfo)
  | err (msg : String)
  deriving DecidableEq

/-- Iteration of main.py lines 95 to 101: accumulate the functions whose name
starts with the configured FUNCTION_PREFIX (the JMESPath filter of line 91),
and on an exception discard everything and return the empty list. -/
def paginate_go (pfx : String) : List PageEvent → List FunctionInfo → List FunctionInfo
  | [], acc => acc
  | PageEvent.page fns :: rest, acc =>
      paginate_go pfx rest (acc ++ fns.filter (fun f => pyStartsWith f.FunctionName pfx))
  | PageEvent.err _ :: _, _ => []

/-- Embedding of list_functions_paginated (main.py lines 76 to 104). -/
def list_functions_paginated (pfx : String) (events : List PageEvent) : List FunctionInfo :=
  paginate_go pfx events []

/-- Four lowercase hexadecimal digits, zero padded, as Python formats a
BMP escape in json.dumps output. -/
def hexDigits4 (n : Nat) : List Char :=
  let ds := Nat.toDigits 16 n
  List.replicate (4 - ds.length) '0' ++ ds

/-- Two lowercase hexadecimal digits, zero padded, as Python formats a byte
escape in a bytes repr. -/
def hexDigits2 (n : Nat) : List Char :=
  let ds := Nat.toDigits 16 n
  List.replicate (2 - ds.length) '0' ++ ds

/-- Escaping of one character by json.dumps with its default ensure_ascii
policy: named escapes for the seven classic control characters, printable
ASCII verbatim, everything else as a u escape (a surrogate pair beyond the
basic plane). -/
def jsonEscapeChar (c : Char) : String :=
  if c = '"' then "\\\""
  else if c = '\\' then "\\\\"
  else if c = Char.ofNat 8 then "\\b"
  else if c = Char.ofNat 9 then "\\t"
  else if c = Char.ofNat 10 then "\\n"
  else if c = Char.ofNat 12 then "\\f"
  else if c = Char.ofNat 13 then "\\r"
  else if 0x20 ≤ c.toNat ∧ c.toNat ≤ 0x7e then String.singleton c
  else if c.toNat < 0x10000 then "\\u" ++ ⟨hexDigits4 c.toNat⟩
  else
    let n := c.toNat - 0x10000
    "\\u" ++ ⟨hexDigits4 (0xd800 + n / 0x400)⟩ ++ "\\u" ++ ⟨hexDigits4 (0xdc00 + n % 0x400)⟩

/-- Python json.dumps of a string value. -/
def json_dumps_str (s : String) : String :=
  "\"" ++ String.join (s.data.map jsonEscapeChar) ++ "\""

/-- Python json.dumps of one projected dictionary built at main.py lines 127
to 130: the FunctionName key always, the Description key only when present,
with the default item and key separators of json.dumps. -/
def entry_json (f : FunctionInfo) : String :=
  match f.Description with
  | none => "\x7b\"FunctionName\": " ++ json_dumps_str f.FunctionName ++ "\x7d"
  | some d =>
      "\x7b\"FunctionName\": " ++ json_dumps_str f.FunctionName ++
        ", \"Description\": " ++ json_dumps_str d ++ "\x7d"

/-- Python json.dumps of the projected list returned at main.py line 132. -/
def json_dumps_entries (l : List FunctionInfo) : String :=
  "[" ++ String.intercalate ", " (l.map entry_json) ++ "]"

/-- Embedding of list_lambda_functions_impl (main.py lines 108 to 132); the
print and ctx.info calls are telemetry and are omitted. -/
def list_lambda_functions_impl (cfg : Config) (events : List PageEvent) : String :=
  let functions := list_functions_paginated cfg.functionPfx events
  let withPfx := functions.filter (fun f => validate_function_name cfg f.FunctionName)
  json_dumps_entries withPfx

/-- Result of a Python call in the embedding: a value, or a raised exception
carried as a message. -/
inductive PyResult (α : Type) where
  | ok (val : α)
  | exn (msg : String)
  deriving DecidableEq

/-- Invoke result as the code reads it (main.py lines 145 to 158): StatusCode
is always present, FunctionError may be absent, Payload is the byte string
obtained from the streaming body. -/
structure InvokeResponse where
  StatusCode : Nat
  FunctionError : Option String
  Payload : List Nat
  deriving DecidableEq

/-- Observable side effects of one tool call: messages passed to ctx.error,
and the names remotely invoked through the Lambda client.  The ctx.info and
print calls are telemetry with no bearing on any claim and are omitted. -/
structure Trace where
  errorLogs : List String
  invocations : List String
  deriving DecidableEq

/-- Python json library boundary for decoding a payload: loads returns none
exactly when json.loads would raise one of the two exception types caught at
main.py line 71, and dumps renders a decoded value at a given indent. -/
structure PyJsonLib (J : Type) where
  loads : List Nat → Option J
  dumps : J → Nat → String

/-- Escaping of one byte inside a Python bytes repr with quote character q:
a backslash and the quote character get a backslash escape, tab, newline and
carriage return their named escapes, other printable ASCII is verbatim, and
everything else an x escape. -/
def pyByteEsc (q : Nat) (b : Nat) : String :=
  if b = 0x5c then "\\\\"
  else if b = q then "\\" ++ String.singleton (Char.ofNat q)
  else if b = 9 then "\\t"
  else if b = 10 then "\\n"
  else if b = 13 then "\\r"
  else if 0x20 ≤ b ∧ b < 0x7f then String.singleton (Char.ofNat b)
  else "\\x" ++ ⟨hexDigits2 (b % 256)⟩

/-- Python str of a bytes value, as an f-string renders it at main.py line
73: a b prefix, then the bytes between quotes, double quotes when the bytes
contain a single quote but no double quote, single quotes otherwise. -/
def pyBytesRepr (bs : List Nat) : String :=
  let useDouble := bs.contains 0x27 && !(bs.contains 0x22)
  let q := if useDouble then 0x22 else 0x27
  "b" ++ String.singleton (Char.ofNat q) ++ String.join (bs.map (pyByteEsc q)) ++
    String.singleton (Char.ofNat q)

/-- Embedding of format_lambda_response (main.py lines 65 to 73): try to
decode the payload as JSON and render it at indent two, and on a decode
failure render the raw bytes repr instead. -/
def format_lambda_response {J : Type} (pj : PyJsonLib J) (function_name : String)
    (payload : List Nat) : String :=
  match pj.loads payload with
  | some payload_json => "Function " ++ function_name ++ " returned: " ++ pj.dumps payload_json 2
  | none => "Function " ++ function_name ++ " returned payload: " ++ pyBytesRepr payload

/-- Embedding of invoke_lambda_function_impl (main.py lines 135 to 161).  The
parameters dictionary is opaque (type P); client_invoke stands for the
lambda_client.invoke call on the serialized parameters and may raise, and
that exception is not caught here, matching the source.  The returned trace
records ctx.error messages and the remote names invoked. -/
def invoke_lambda_function_impl {P J : Type} (cfg : Config) (pj : PyJsonLib J)
    (client_invoke : String → P → PyResult InvokeResponse)
    (function_name : String) (parameters : P) : PyResult String × Trace :=
  if validate_function_name cfg function_name = false then
    (PyResult.ok ("Function " ++ function_name ++ " is not valid"), ⟨[], []⟩)
  else
    match client_invoke function_name parameters with
    | PyResult.exn e => (PyResult.exn e, ⟨[], [function_name]⟩)
    | PyResult.ok response =>
      match response.FunctionError with
      | some fe =>
          let error_message := "Function " ++ function_name ++ " returned with error: " ++ fe
          (PyResult.ok error_message, ⟨[error_message], [function_name]⟩)
      | none =>
          (PyResult.ok (format_lambda_response pj function_name response.Payload),
            ⟨[], [function_name]⟩)

/-- One tool as the FastMCP server records it: its registered name and its
description. -/
structure ToolReg where
  toolName : String
  description : String
  deriving DecidableEq

/-- Protocol server boundary: registration of a tool name either succeeds or
raises with a message.  FastMCP is a black box consumed through mcp.tool. -/
structure McpServer where
  registerFails : String → Option String

/-- Docstring of list_lambda_functions_impl (main.py lines 109 to 111), used
by FastMCP as the description of the registered tool. -/
def list_tool_doc : String :=
  "Tool that lists all AWS Lambda functions that you can call as tools.\n    Use this list to understand what these functions are and what they do.\n    This functions can help you in many different ways."

/-- Docstring of invoke_lambda_function_impl (main.py lines 136 to 137). -/
def invoke_tool_doc : String :=
  "Tool that invokes an AWS Lambda function with a JSON payload.\n    Before using this tool, list the functions available to you."

/-- Generic list tool as registered by mcp.tool() with no explicit name at
main.py lines 224 and 230: FastMCP then uses the function dunder name, which
is list_lambda_functions_impl. -/
def generic_list_tool : ToolReg :=
  { toolName := "list_lambda_functions_impl", description := list_tool_doc }

/-- Generic invoke tool as registered by mcp.tool() with no explicit name at
main.py lines 225 and 231. -/
def generic_invoke_tool : ToolReg :=
  { toolName := "invoke_lambda_function_impl", description := invoke_tool_doc }

/-- Registration loop of main.py lines 203 to 214 together with
create_lambda_tool (lines 164 to 184): for each valid function derive the
tool name and description and register; a raised registration error stops
the loop, keeping the registrations already performed, and is reported as
the second component. -/
def discovery_register (cfg : Config) (mcp : McpServer) :
    List FunctionInfo → List ToolReg × Option String
  | [] => ([], none)
  | f :: rest =>
      let tool : ToolReg :=
        { toolName := sanitize_tool_name cfg f.FunctionName,
          description := derive_description f }
      match mcp.registerFails tool.toolName with
      | some m => ([], some m)
      | none =>
          let r := discovery_register cfg mcp rest
          (tool :: r.1, r.2)

/-- Outcome of module-level bootstrap: the tools registered on the server,
and an exception escaping module initialization when one of the final
generic registrations itself raises. -/
structure BootOutcome where
  tools : List ToolReg
  uncaught : Option String
  deriving DecidableEq

/-- Registration of the two generic tools (main.py lines 224 to 225 and 230
to 231), appended after whatever was already registered; an exception here
is not caught by anything and escapes. -/
def register_generic (mcp : McpServer) (acc : List ToolReg) : BootOutcome :=
  match mcp.registerFails generic_list_tool.toolName with
  | some m => { tools := acc, uncaught := some m }
  | none =>
    match mcp.registerFails generic_invoke_tool.toolName with
    | some m => { tools := acc ++ [generic_list_tool], uncaught := some m }
    | none => { tools := acc ++ [generic_list_tool, generic_invoke_tool], uncaught := none }

/-- Functions surviving enumeration and the validate_function_name filter at
main.py lines 196 to 198. -/
def valid_functions (cfg : Config) (events : List PageEvent) : List FunctionInfo :=
  (list_functions_paginated cfg.functionPfx events).filter
    (fun f => validate_function_name cfg f.FunctionName)

/-- Module-level bootstrap (main.py lines 190 to 232): under PRE_DISCOVERY,
enumerate and register one tool per valid function, and if an exception is
raised inside the try block, log it and register the two generic tools as
fallback; with PRE_DISCOVERY disabled, register only the generic tools. -/
def bootstrap (cfg : Config) (preDiscovery : Bool) (events : List PageEvent)
    (mcp : McpServer) : BootOutcome :=
  if preDiscovery then
    let r := discovery_register cfg mcp (valid_functions cfg events)
    match r.2 with
    | none => { tools := r.1, uncaught := none }
    | some _ => register_generic mcp r.1
  else register_generic mcp []

/-- Byte string of an ASCII text, for concrete payloads in examples. -/
def strBytes (s : String) : List Nat := s.data.map Char.toNat

/-- Protocol server on which every registration succeeds. -/
def mcpNeverFails : McpServer := ⟨fun _ => none⟩

/-- Protocol server raising exactly on the tool name foo, exercising a
registration failure inside the discovery pass. -/
def mcpFailsOnFoo : McpServer := ⟨fun n => if n = "foo" then some "boom" else none⟩

/-- Minimal concrete instantiation of the json library boundary: decodes
exactly the byte string of the digit one. -/
def unitJsonLib : PyJsonLib Unit :=
  ⟨fun bs => if bs = strBytes "1" then some () else none, fun _ _ => "1"⟩

/-- Configuration with a nonempty allow-list, exercising names that are
eligible only through FUNCTION_LIST. -/
def allowCfg : Config := { functionPfx := "mcp2lambda-", functionList := ["allowed-fn"] }

/-- Registry holding one function eligible only through the allow-list and
one function matching the configured FUNCTION_PREFIX. -/
def mixedPages : List PageEvent :=
  [PageEvent.page [⟨"allowed-fn", some "A"⟩, ⟨"mcp2lambda-foo", some "B"⟩]]

/-- Strings with equal character data are equal. -/
theorem string_data_inj (s t : String) (h : s.data = t.data) : s = t := by
  cases s; cases t; exact congrArg String.mk (by simpa using h)

/-- The substitution of main.py line 55 always lands in [a-zA-Z0-9_]. -/
theorem isIdentChar_substInvalidChar (c : Char) : isIdentChar (substInvalidChar c) = true := by
  unfold substInvalidChar
  split
  · assumption
  · decide

/-- A member of [a-zA-Z0-9_] that is not an ASCII digit is a legal identifier
start character. -/
theorem isIdentStartChar_of_not_digit (c : Char) (h1 : isIdentChar c = true)
    (h2 : asciiIsDigit c = false) : isIdentStartChar c = true := by
  unfold isIdentChar at h1
  unfold asciiIsDigit at h2
  unfold isIdentStartChar
  simp only [Bool.or_eq_true, Bool.and_eq_true, decide_eq_true_eq] at h1 ⊢
  simp only [Bool.and_eq_false_iff, decide_eq_false_iff_not] at h2
  tauto

/-- Stripping the configured FUNCTION_PREFIX from a nonempty name other than
the exact FUNCTION_PREFIX value leaves a nonempty string. -/
theorem stripPfx_data_ne_nil (cfg : Config) (name : String)
    (hne : name ≠ "") (hnp : name ≠ cfg.functionPfx) : (stripPfx cfg name).data ≠ [] := by
  unfold stripPfx
  split
  · rename_i hsw
    have hpre : cfg.functionPfx.data <+: name.data := List.isPrefixOf_iff_prefix.mp hsw
    intro hd
    have hd2 : name.data.drop cfg.functionPfx.length = [] := hd
    have hlen : name.data.length ≤ cfg.functionPfx.data.length :=
      List.drop_eq_nil_iff.mp hd2
    have heq : cfg.functionPfx.data = name.data :=
      hpre.eq_of_length (le_antisymm hpre.length_le hlen)
    exact hnp (string_data_inj name cfg.functionPfx heq.symm)
  · intro hd
    exact hne (string_data_inj name "" hd)

/-- The leading-digit guard turns any nonempty string over [a-zA-Z0-9_] into
a legal identifier. -/
theorem leadingDigitGuard_legal (s : String) (hne : s.data ≠ [])
    (hall : ∀ c ∈ s.data, isIdentChar c = true) :
    isLegalToolIdent (leadingDigitGuard s) = true := by
  unfold leadingDigitGuard
  cases hs : s.data with
  | nil => exact absurd hs hne
  | cons c rest =>
    have hc : isIdentChar c = true := hall c (hs ▸ List.mem_cons_self c rest)
    have hrest : rest.all isIdentChar = true := by
      rw [List.all_eq_true]
      intro x hx
      exact hall x (hs ▸ List.mem_cons_of_mem c hx)
    show isLegalToolIdent (if asciiIsDigit c = true then "_" ++ s else s) = true
    by_cases hdig : asciiIsDigit c = true
    · rw [if_pos hdig]
      unfold isLegalToolIdent
      have hdata : ("_" ++ s).data = '_' :: c :: rest := by
        rw [String.data_append, hs]
        rfl
      rw [hdata]
      simp only [List.all_cons, hc, hrest, Bool.and_self, Bool.and_true]
      decide
    · rw [if_neg hdig]
      unfold isLegalToolIdent
      rw [hs]
      show (isIdentStartChar c && rest.all isIdentChar) = true
      rw [isIdentStartChar_of_not_digit c hc (by simpa using hdig), hrest]
      rfl

/-- C1 (amended): for every nonempty input other than the exact configured
FUNCTION_PREFIX value, sanitize_tool_name returns a nonempty identifier
matching the pattern of one character of [A-Za-z_] followed by characters of
[A-Za-z0-9_]; an input equal to FUNCTION_PREFIX itself yields the empty
string after stripping and is not covered. -/
theorem sanitize_tool_name_legal (cfg : Config) (name : String)
    (hne : name ≠ "") (hnp : name ≠ cfg.functionPfx) :
    isLegalToolIdent (sanitize_tool_name cfg name) = true := by
  unfold sanitize_tool_name
  apply leadingDigitGuard_legal
  · show (stripPfx cfg name).data.map substInvalidChar ≠ []
    rw [Ne, List.map_eq_nil_iff]
    exact stripPfx_data_ne_nil cfg name hne hnp
  · intro c hc
    obtain ⟨a, _, rfl⟩ := List.mem_map.mp hc
    exact isIdentChar_substInvalidChar a

/-- Witness for the amended C1 statement at a concrete eligible name. -/
theorem sanitize_tool_name_legal_witness :
    isLegalToolIdent (sanitize_tool_name defaultConfig "mcp2lambda-3abc.def") = true :=
  sanitize_tool_name_legal defaultConfig "mcp2lambda-3abc.def" (by decide) (by decide)

/-- C1 counterexample: the nonempty input equal to the configured
FUNCTION_PREFIX is sanitized to the empty string, which is not a legal
identifier, refuting the claim that every nonempty input yields a nonempty
legal identifier. -/
theorem sanitize_tool_name_empty_on_pfx :
    ("mcp2lambda-" : String) ≠ "" ∧
    sanitize_tool_name defaultConfig "mcp2lambda-" = "" ∧
    isLegalToolIdent (sanitize_tool_name defaultConfig "mcp2lambda-") = false := by
  refine ⟨by decide, by decide, by decide⟩

/-- C2: validate_function_name accepts a name exactly when it starts with the
configured FUNCTION_PREFIX or is a member of FUNCTION_LIST. -/
theorem validate_function_name_iff (cfg : Config) (n : String) :
    validate_function_name cfg n = true ↔
      (pyStartsWith n cfg.functionPfx = true ∨ n ∈ cfg.functionList) := by
  unfold validate_function_name
  simp [List.contains, List.elem_iff]

/-- An enumeration error anywhere in the event stream makes the collecting
loop of list_functions_paginated return the empty list, whatever was already
accumulated. -/
theorem paginate_go_err (pfx : String) (msg : String) :
    ∀ (events : List PageEvent) (acc : List FunctionInfo),
      PageEvent.err msg ∈ events → paginate_go pfx events acc = [] := by
  intro events
  induction events with
  | nil => intro acc h; cases h
  | cons e rest ih =>
    intro acc h
    cases e with
    | page fns =>
      have hrest : PageEvent.err msg ∈ rest := by
        rcases List.mem_cons.mp h with h1 | h1
        · cases h1
        · exact h1
      exact ih _ hrest
    | err m => rfl

/-- C5: a raised enumeration error is swallowed inside list_functions_paginated,
which returns the empty sequence instead of propagating the exception. -/
theorem list_functions_paginated_empty_on_error (pfx : String) (events : List PageEvent)
    (msg : String) (h : PageEvent.err msg ∈ events) :
    list_functions_paginated pfx events = [] :=
  paginate_go_err pfx msg events [] h

/-- Witness for C5: an error event after a successful page still yields the
empty result. -/
theorem list_functions_paginated_empty_on_error_witness :
    list_functions_paginated "mcp2lambda-"
      [PageEvent.page [⟨"mcp2lambda-a", none⟩], PageEvent.err "boom"] = [] :=
  list_functions_paginated_empty_on_error "mcp2lambda-"
    [PageEvent.page [⟨"mcp2lambda-a", none⟩], PageEvent.err "boom"] "boom" (by decide)

/-- Error-free pagination concatenates the pages and keeps exactly the
functions whose name starts with the configured FUNCTION_PREFIX. -/
theorem paginate_go_pages (pfx : String) :
    ∀ (pages : List (List FunctionInfo)) (acc : List FunctionInfo),
      paginate_go pfx (pages.map PageEvent.page) acc =
        acc ++ pages.flatten.filter (fun f => pyStartsWith f.FunctionName pfx) := by
  intro pages
  induction pages with
  | nil => intro acc; simp [paginate_go]
  | cons p rest ih =>
    intro acc
    simp only [List.map_cons, paginate_go, ih, List.flatten_cons, List.filter_append,
      List.append_assoc]

/-- Every survivor of the FUNCTION_PREFIX filter also passes
validate_function_name, so the second filter of the list tool drops nothing. -/
theorem filter_validate_of_starts (cfg : Config) (l : List FunctionInfo) :
    (l.filter (fun f => pyStartsWith f.FunctionName cfg.functionPfx)).filter
        (fun f => validate_function_name cfg f.FunctionName) =
      l.filter (fun f => pyStartsWith f.FunctionName cfg.functionPfx) := by
  rw [List.filter_eq_self]
  intro f hf
  have hs : pyStartsWith f.FunctionName cfg.functionPfx = true := (List.mem_filter.mp hf).2
  unfold validate_function_name
  rw [hs]
  rfl

/-- C4 (amended): on an error-free enumeration the generic list tool returns
the json.dumps encoding of one entry per function whose name starts with the
configured FUNCTION_PREFIX, in enumeration order, each entry holding the
FunctionName and, when present, the Description; functions eligible only
through FUNCTION_LIST never appear, because the pagination filter is the
FUNCTION_PREFIX test alone. -/
theorem list_lambda_functions_impl_exactly_pfx (cfg : Config)
    (pages : List (List FunctionInfo)) :
    list_lambda_functions_impl cfg (pages.map PageEvent.page) =
      json_dumps_entries
        (pages.flatten.filter (fun f => pyStartsWith f.FunctionName cfg.functionPfx)) := by
  unfold list_lambda_functions_impl list_functions_paginated
  rw [paginate_go_pages cfg.functionPfx pages []]
  simp only [List.nil_append, filter_validate_of_starts]

/-- C4 counterexample: the function allowed-fn is eligible (it is in
FUNCTION_LIST), yet the string returned by the generic list tool does not
mention it anywhere, so no entry for it is present. -/
theorem list_lambda_functions_impl_omits_allowlist :
    validate_function_name allowCfg "allowed-fn" = true ∧
    pyContains (list_lambda_functions_impl allowCfg mixedPages) "allowed-fn" = false := by
  refine ⟨by decide, by decide⟩

/-- When the protocol server accepts every registration, the discovery loop
registers one tool per valid function, in order, and raises nothing. -/
theorem discovery_register_all_ok (cfg : Config) (mcp : McpServer)
    (hmcp : ∀ n, mcp.registerFails n = none) :
    ∀ l : List FunctionInfo,
      discovery_register cfg mcp l =
        (l.map (fun f => { toolName := sanitize_tool_name cfg f.FunctionName,
                           description := derive_description f }), none) := by
  intro l
  induction l with
  | nil => rfl
  | cons f rest ih =>
    simp only [discovery_register, hmcp, ih, List.map_cons]

/-- C3 (amended): an exception raised inside the bootstrap try block, here a
tool registration raised by the protocol server, is caught at the bootstrap
level: the two generic tools are then registered as fallback, under the
names list_lambda_functions_impl and invoke_lambda_function_impl that
mcp.tool() derives from the wrapped functions, after whatever dynamic tools
were already registered, and nothing escapes module initialization (an
enumeration failure, by contrast, is swallowed into an empty function list
and never reaches this fallback). -/
theorem bootstrap_fallback_on_registration_error (cfg : Config) (events : List PageEvent)
    (mcp : McpServer) (m : String)
    (hl : mcp.registerFails generic_list_tool.toolName = none)
    (hi : mcp.registerFails generic_invoke_tool.toolName = none)
    (hfail : (discovery_register cfg mcp (valid_functions cfg events)).2 = some m) :
    bootstrap cfg true events mcp =
      { tools := (discovery_register cfg mcp (valid_functions cfg events)).1 ++
          [generic_list_tool, generic_invoke_tool],
        uncaught := none } := by
  unfold bootstrap register_generic
  simp only [if_pos trivial, hfail, hl, hi]

/-- Witness for the amended C3 statement: with one discovered function whose
sanitized tool name the server rejects, the bootstrap ends with exactly the
two generic tools and no escaping exception. -/
theorem bootstrap_fallback_witness :
    bootstrap defaultConfig true [PageEvent.page [⟨"mcp2lambda-foo", none⟩]] mcpFailsOnFoo =
      { tools := [generic_list_tool, generic_invoke_tool], uncaught := none } := by
  have h := bootstrap_fallback_on_registration_error defaultConfig
    [PageEvent.page [⟨"mcp2lambda-foo", none⟩]] mcpFailsOnFoo "boom"
    (by decide) (by decide) (by decide)
  simpa using h

/-- C3 counterexample: when the enumeration step itself throws, the exception
is swallowed inside list_functions_paginated, the try block completes with
zero discovered functions, and no fallback happens: the registered tool set
is empty rather than the two generic tools the claim requires. -/
theorem bootstrap_no_fallback_on_enumeration_error :
    bootstrap defaultConfig true [PageEvent.err "ListFunctions failed"] mcpNeverFails =
      { tools := [], uncaught := none } ∧
    (bootstrap defaultConfig true [PageEvent.err "ListFunctions failed"] mcpNeverFails).tools.map
        ToolReg.toolName ≠ ["list_lambda_functions", "invoke_lambda_function"] := by
  refine ⟨by decide, by decide⟩

/-- A list that carries sep as a contiguous segment makes the leftmost-search
succeed, whatever surrounds it. -/
theorem findFirstSplit_isSome_of_infix (sep : List Char) :
    ∀ (a b : List Char), (findFirstSplit sep (a ++ (sep ++ b))).isSome = true := by
  intro a
  induction a with
  | nil =>
    intro b
    cases hsep : sep with
    | nil =>
      cases b with
      | nil => rfl
      | cons x xs => simp [findFirstSplit]
    | cons c cs =>
      have hpre : (c :: cs).isPrefixOf ((c :: cs) ++ b) = true :=
        List.isPrefixOf_iff_prefix.mpr ⟨b, rfl⟩
      simp [findFirstSplit, hpre]
  | cons x xs ih =>
    intro b
    simp only [List.cons_append, findFirstSplit]
    split
    · rfl
    · have h2 := ih b
      cases hf : findFirstSplit sep (xs ++ (sep ++ b)) with
      | none => rw [hf] at h2; simp at h2
      | some p => simp

/-- A string built around sub as a contiguous segment contains sub in the
Python sense. -/
theorem pyContains_append_middle (a sub b : String) :
    pyContains (a ++ sub ++ b) sub = true := by
  unfold pyContains
  rw [String.data_append, String.data_append, List.append_assoc]
  exact findFirstSplit_isSome_of_infix sub.data a.data b.data

/-- C6: a name failing validate_function_name makes the generic invoke tool
return the rejection string without raising and without any remote
invocation (the trace records no ctx.error message and no invoked name). -/
theorem invoke_lambda_function_impl_rejects {P J : Type} (cfg : Config) (pj : PyJsonLib J)
    (client_invoke : String → P → PyResult InvokeResponse) (name : String) (params : P)
    (h : validate_function_name cfg name = false) :
    invoke_lambda_function_impl cfg pj client_invoke name params =
      (PyResult.ok ("Function " ++ name ++ " is not valid"), ⟨[], []⟩) := by
  simp [invoke_lambda_function_impl, h]

/-- Witness for C6 at a concrete ineligible name, with a client that would
raise if it were ever consulted. -/
theorem invoke_lambda_function_impl_rejects_witness :
    invoke_lambda_function_impl defaultConfig unitJsonLib
        (fun _ _ => PyResult.exn "unreachable") "other" () =
      (PyResult.ok ("Function " ++ "other" ++ " is not valid"), ⟨[], []⟩) :=
  invoke_lambda_function_impl_rejects defaultConfig unitJsonLib
    (fun _ _ => PyResult.exn "unreachable") "other" () (by decide)

/-- C7: when the invocation result carries a FunctionError, the invoke tool
passes the error message to ctx.error, returns it as an ordinary string
(never raising), and that string contains both the function name and the
error indicator. -/
theorem invoke_lambda_function_impl_function_error {P J : Type} (cfg : Config)
    (pj : PyJsonLib J) (client_invoke : String → P → PyResult InvokeResponse)
    (name : String) (params : P) (resp : InvokeResponse) (fe : String)
    (hv : validate_function_name cfg name = true)
    (hc : client_invoke name params = PyResult.ok resp)
    (hfe : resp.FunctionError = some fe) :
    invoke_lambda_function_impl cfg pj client_invoke name params =
      (PyResult.ok ("Function " ++ name ++ " returned with error: " ++ fe),
        ⟨["Function " ++ name ++ " returned with error: " ++ fe], [name]⟩) ∧
    pyContains ("Function " ++ name ++ " returned with error: " ++ fe) name = true ∧
    pyContains ("Function " ++ name ++ " returned with error: " ++ fe) fe = true := by
  refine ⟨?_, ?_, ?_⟩
  · simp [invoke_lambda_function_impl, hv, hc, hfe]
  · rw [String.append_assoc ("Function " ++ name) " returned with error: " fe,
      String.append_assoc "Function " name (" returned with error: " ++ fe)]
    exact pyContains_append_middle "Function " name (" returned with error: " ++ fe)
  · have h := pyContains_append_middle ("Function " ++ name ++ " returned with error: ") fe ""
    simpa using h

/-- Witness for C7 at a concrete eligible name and a concrete Unhandled
error result. -/
theorem invoke_lambda_function_impl_function_error_witness :
    invoke_lambda_function_impl defaultConfig unitJsonLib
        (fun _ _ => PyResult.ok ⟨200, some "Unhandled", strBytes "ignored"⟩)
        "mcp2lambda-foo" () =
      (PyResult.ok ("Function " ++ "mcp2lambda-foo" ++ " returned with error: " ++ "Unhandled"),
        ⟨["Function " ++ "mcp2lambda-foo" ++ " returned with error: " ++ "Unhandled"],
          ["mcp2lambda-foo"]⟩) ∧
    pyContains ("Function " ++ "mcp2lambda-foo" ++ " returned with error: " ++ "Unhandled")
        "mcp2lambda-foo" = true ∧
    pyContains ("Function " ++ "mcp2lambda-foo" ++ " returned with error: " ++ "Unhandled")
        "Unhandled" = true :=
  invoke_lambda_function_impl_function_error defaultConfig unitJsonLib
    (fun _ _ => PyResult.ok ⟨200, some "Unhandled", strBytes "ignored"⟩)
    "mcp2lambda-foo" () ⟨200, some "Unhandled", strBytes "ignored"⟩ "Unhandled"
    (by decide) rfl rfl

/-- C8: format_lambda_response is total and two-branched: when the json
library decodes the payload the result is the returned prefix followed by
the decoding pretty printed at indent two, and when decoding raises the
result is the payload prefix followed by the Python repr of the raw bytes;
no input makes it throw. -/
theorem format_lambda_response_branches {J : Type} (pj : PyJsonLib J) (name : String)
    (payload : List Nat) :
    (∀ j, pj.loads payload = some j →
      format_lambda_response pj name payload =
        "Function " ++ name ++ " returned: " ++ pj.dumps j 2) ∧
    (pj.loads payload = none →
      format_lambda_response pj name payload =
        "Function " ++ name ++ " returned payload: " ++ pyBytesRepr payload) := by
  constructor
  · intro j hj
    simp [format_lambda_response, hj]
  · intro hn
    simp [format_lambda_response, hn]

/-- Witness for C8: the undecodable payload b"not json" lands in the raw
branch and the decodable payload lands in the decoded branch. -/
theorem format_lambda_response_branches_witness :
    format_lambda_response unitJsonLib "f" (strBytes "not json") =
      "Function " ++ "f" ++ " returned payload: " ++ pyBytesRepr (strBytes "not json") ∧
    format_lambda_response unitJsonLib "f" (strBytes "1") =
      "Function " ++ "f" ++ " returned: " ++ unitJsonLib.dumps () 2 :=
  ⟨(format_lambda_response_branches unitJsonLib "f" (strBytes "not json")).2 (by decide),
    (format_lambda_response_branches unitJsonLib "f" (strBytes "1")).1 () (by decide)⟩

/-- C9 (amended): with every registration accepted, discovery registers one
tool per valid function whose description is derive_description, and
derive_description behaves by cases: a present description containing the
Expected format: marker gets a Parameters suffix holding the stripped text
after the first marker occurrence, a present description without the marker
is used verbatim, and an absent description yields the default, which is
AWS Lambda function: followed by the name. -/
theorem bootstrap_descriptions (cfg : Config) (events : List PageEvent) (mcp : McpServer)
    (hmcp : ∀ n, mcp.registerFails n = none) :
    (bootstrap cfg true events mcp).tools =
      (valid_functions cfg events).map
        (fun f => { toolName := sanitize_tool_name cfg f.FunctionName,
                    description := derive_description f }) ∧
    (∀ name d, pyContains d expectedFormatMarker = true →
      derive_description ⟨name, some d⟩ =
        d ++ "\n\nParameters: " ++ pyStrip (pySplit1 d expectedFormatMarker)) ∧
    (∀ name d, pyContains d expectedFormatMarker = false →
      derive_description ⟨name, some d⟩ = d) ∧
    (∀ name, pyContains ("AWS Lambda function: " ++ name) expectedFormatMarker = false →
      derive_description ⟨name, none⟩ = "AWS Lambda function: " ++ name) := by
  refine ⟨?_, ?_, ?_, ?_⟩
  · unfold bootstrap
    simp only [if_pos trivial, discovery_register_all_ok cfg mcp hmcp]
  · intro name d hc
    simp [derive_description, hc]
  · intro name d hc
    simp [derive_description, hc]
  · intro name hc
    simp [derive_description, hc]

/-- Witness for the amended C9 statement: one function without a description
is registered under the stripped tool name with the default description. -/
theorem bootstrap_descriptions_witness :
    (bootstrap defaultConfig true [PageEvent.page [⟨"mcp2lambda-foo", none⟩]]
        mcpNeverFails).tools =
      [{ toolName := "foo", description := "AWS Lambda function: mcp2lambda-foo" }] := by
  have h := (bootstrap_descriptions defaultConfig
    [PageEvent.page [⟨"mcp2lambda-foo", none⟩]] mcpNeverFails (fun _ => rfl)).1
  rw [h]
  decide

/-- C9 counterexample: a function with no description is registered with the
default description AWS Lambda function: followed by the name, not with the
Remote function: default the claim states. -/
theorem derive_description_default_not_remote :
    derive_description ⟨"mcp2lambda-foo", none⟩ = "AWS Lambda function: mcp2lambda-foo" ∧
    derive_description ⟨"mcp2lambda-foo", none⟩ ≠ "Remote function: mcp2lambda-foo" := by
  refine ⟨by decide, by decide⟩

/-- C10 (implicit): on a FunctionError result the returned string is exactly
the fixed error sentence built from the name and the FunctionError value,
and the response payload is never read: replacing the payload by any other
byte string leaves the whole observable result unchanged. -/
theorem invoke_lambda_function_impl_error_ignores_payload {P J : Type} (cfg : Config)
    (pj : PyJsonLib J) (name : String) (params : P) (resp : InvokeResponse) (fe : String)
    (other : List Nat)
    (hv : validate_function_name cfg name = true)
    (hfe : resp.FunctionError = some fe) :
    (invoke_lambda_function_impl cfg pj (fun _ _ => PyResult.ok resp) name params).1 =
      PyResult.ok ("Function " ++ name ++ " returned with error: " ++ fe) ∧
    invoke_lambda_function_impl cfg pj (fun _ _ => PyResult.ok resp) name params =
      invoke_lambda_function_impl cfg pj
        (fun _ _ => PyResult.ok { resp with Payload := other }) name params := by
  constructor
  · simp [invoke_lambda_function_impl, hv, hfe]
  · simp [invoke_lambda_function_impl, hv, hfe]

/-- Witness for C10 at a concrete error response whose payload differs. -/
theorem invoke_lambda_function_impl_error_ignores_payload_witness :
    (invoke_lambda_function_impl defaultConfig unitJsonLib
        (fun _ _ => PyResult.ok ⟨200, some "Unhandled", strBytes "errorMessage boom"⟩)
        "mcp2lambda-foo" ()).1 =
      PyResult.ok ("Function " ++ "mcp2lambda-foo" ++ " returned with error: " ++ "Unhandled") ∧
    invoke_lambda_function_impl defaultConfig unitJsonLib
        (fun _ _ => PyResult.ok ⟨200, some "Unhandled", strBytes "errorMessage boom"⟩)
        "mcp2lambda-foo" () =
      invoke_lambda_function_impl defaultConfig unitJsonLib
        (fun _ _ => PyResult.ok
          { (⟨200, some "Unhandled", strBytes "errorMessage boom"⟩ : InvokeResponse) with
              Payload := [] }) "mcp2lambda-foo" () :=
  invoke_lambda_function_impl_error_ignores_payload defaultConfig unitJsonLib
    "mcp2lambda-foo" () ⟨200, some "Unhandled", strBytes "errorMessage boom"⟩ "Unhandled" []
    (by decide) rfl
